import Mathlib

/-!
Verification development for the audio-share-linux-gtk core: a shallow
embedding of `src/audioshare.rs` (process supervisor `AudioShareServerThread`,
firewall probe `FirewallTestThread`) and of the relevant controller logic of
`src/application.rs`, with theorems settling the specification claims.

Channels are modelled as lists of published values (a publish appends); the
pool of live OS processes is modelled as a `World` holding the pids that are
currently alive; each background thread body is modelled as a
state-transforming function over the lines (resp. poll observations) it
consumes.
-/

namespace AudioShareGtk

/-- Character-list prefix test, used by the substring scan. -/
def isPrefixL : List Char → List Char → Bool
  | [], _ => true
  | _ :: _, [] => false
  | p :: ps, c :: cs => p == c && isPrefixL ps cs

/-- Character-list substring test, scanning every suffix. -/
def isInfixL (pat : List Char) : List Char → Bool
  | [] => isPrefixL pat []
  | c :: rest => isPrefixL pat (c :: rest) || isInfixL pat rest

/-- Embedding of Rust `str::contains(pat)` (substring containment). -/
def strContains (s pat : String) : Bool :=
  isInfixL pat.toList s.toList

/-- Splits a character list into maximal runs of non-whitespace characters;
`cur` accumulates the current token reversed. -/
def wsTokensAux : List Char → List Char → List (List Char)
  | cur, [] => if cur.isEmpty then [] else [cur.reverse]
  | cur, c :: cs =>
    if c.isWhitespace then
      if cur.isEmpty then wsTokensAux [] cs
      else cur.reverse :: wsTokensAux [] cs
    else wsTokensAux (c :: cur) cs

/-- Embedding of Rust `line.split_whitespace().last()`: the last
whitespace-delimited non-empty token of a line, if any. -/
def lastToken (line : String) : Option String :=
  ((wsTokensAux [] line.toList).map (fun cs => String.mk cs)).getLast?

/-- Splits a character list at its FIRST colon, when one exists. -/
def breakAtColon : List Char → Option (List Char × List Char)
  | [] => none
  | c :: cs =>
    if c == ':' then some ([], cs)
    else
      match breakAtColon cs with
      | some (pre, post) => some (c :: pre, post)
      | none => none

/-- Embedding of Rust `tok.split_once(':')`: the parts before and after the
FIRST colon; `none` when the token has no colon. -/
def splitOnceColon (tok : String) : Option (String × String) :=
  match breakAtColon tok.toList with
  | some (pre, post) => some (String.mk pre, String.mk post)
  | none => none

/-- The part of a character list before its LAST colon, when one exists. -/
def lastColonPrefix : List Char → Option (List Char)
  | [] => none
  | c :: cs =>
    match lastColonPrefix cs with
    | some pre => some (c :: pre)
    | none => if c == ':' then some [] else none

/-- The spec's reading of the address extraction ("split on the last colon
into address/port"): the token's part before its LAST colon. Stated from the
spec's words only, to be compared with `splitOnceColon`, which is the
extraction the source performs. -/
def specLastColonAddr (tok : String) : Option String :=
  (lastColonPrefix tok.toList).map (fun cs => String.mk cs)

/-- The stdout accept marker checked at `audioshare.rs:356`. -/
def acceptMarker : String := "[info] accept"

/-- The stdout close marker checked at `audioshare.rs:367`. -/
def closeMarker : String := "[info] close"

/-- The stderr bind-failure marker checked at `audioshare.rs:390`. -/
def bindMarker : String := "bind: Cannot assign requested address"

/-- The stderr invalid-argument marker checked at `audioshare.rs:397`. -/
def argMarker : String := "Invalid argument"

/-- `ProcessStopReason` from `audioshare.rs:261-269`. -/
inductive ProcessStopReason
  | InvalidBinding
  | InvalidArgument
  | FirewallBlocked
  | ExitedSuccessfully
  | Resetting
  | ExitedWithError (code : Option Int)
  | FailedToKill
deriving Repr, DecidableEq

/-- Device events emitted for one stdout line by the stdout thread body
(`audioshare.rs:354-377`): an accept-marker line with a trailing token
containing a colon emits `(part before the first colon, true)`; a
close-marker line likewise emits `(…, false)`; the two checks are independent
`if`s, so a line containing both markers emits both events, in that order. -/
def classifyStdoutLine (line : String) : List (String × Bool) :=
  (if strContains line acceptMarker then
    match lastToken line with
    | some tok =>
      match splitOnceColon tok with
      | some (ip, _) => [(ip, true)]
      | none => []
    | none => []
  else []) ++
  (if strContains line closeMarker then
    match lastToken line with
    | some tok =>
      match splitOnceColon tok with
      | some (ip, _) => [(ip, false)]
      | none => []
    | none => []
  else [])

/-- The stderr thread's line scan (`audioshare.rs:385-401`): the first line
containing the bind marker yields `InvalidBinding` (reading stops), otherwise
the first line containing the invalid-argument marker yields `InvalidArgument`
(reading stops); end-of-stream with no match yields `ExitedSuccessfully`.
A line containing both markers yields `InvalidBinding` (the bind check runs
first). -/
def classifyStderr : List String → ProcessStopReason
  | [] => .ExitedSuccessfully
  | l :: ls =>
    if strContains l bindMarker then .InvalidBinding
    else if strContains l argMarker then .InvalidArgument
    else classifyStderr ls

/-- A stderr line matching one of the two fault markers. -/
def isFaultLine (l : String) : Bool :=
  strContains l bindMarker || strContains l argMarker

/-- The pool of OS processes: the next fresh pid and the pids currently
alive. -/
structure World where
  nextPid : Nat
  alive : List Nat
deriving Repr, DecidableEq

/-- Spawning a child: allocates a fresh pid and adds it to the live pool. -/
def spawnW (w : World) : World × Nat :=
  (⟨w.nextPid + 1, w.alive ++ [w.nextPid]⟩, w.nextPid)

/-- Killing pid `p`: removes it from the live pool; killing a pid that is not
alive fails in the source (`Err`, logged only), modelled by `erase` being a
no-op there. -/
def killW (w : World) (p : Nat) : World :=
  ⟨w.nextPid, w.alive.erase p⟩

/-- State of `AudioShareServerThread` (`audioshare.rs:274-279`):
`server_child` is the stored child handle (its pid), `running` the boolean
flag, `stopPub` the values published on the watch stop-reason channel and
`devicePub` the values published on the broadcast device-event channel. -/
structure ASState where
  server_child : Option Nat
  running : Bool
  stopPub : List ProcessStopReason
  devicePub : List (String × Bool)
deriving Repr, DecidableEq

/-- The handle/flag linkage the spec asserts for the supervisor: a handle is
stored exactly when the running flag is true. -/
def handleRunningInv (st : ASState) : Prop :=
  st.server_child.isSome = st.running

/-- Synchronous part of `AudioShareServerThread::start`
(`audioshare.rs:301-423`): under both locks, a call with the running flag set
or a handle stored returns without any effect; otherwise the child is spawned
(`spawnOk` abstracts the OS outcome): on success the handle is stored and the
running flag set, on failure the running flag is set false and nothing else
changes. No channel publish happens on any path. -/
def startAS (spawnOk : Bool) (st : ASState) (w : World) : ASState × World :=
  if st.running then (st, w)
  else if st.server_child.isSome then (st, w)
  else if spawnOk then
    let (w', pid) := spawnW w
    ({ st with server_child := some pid, running := true }, w')
  else
    ({ st with running := false }, w)

/-- Body of the stdout-reading thread (`audioshare.rs:352-379`): publishes the
device events classified from each line, and on end-of-stream sets the running
flag false. It does not touch the stored handle and publishes nothing on the
stop-reason channel. -/
def stdoutTask (lines : List String) (st : ASState) : ASState :=
  { st with
    devicePub := st.devicePub ++ lines.flatMap classifyStdoutLine
    running := false }

/-- Body of the stderr-reading thread (`audioshare.rs:382-413`): classifies
the stream into one terminal reason, kills the stored child when present
(a kill failure is only logged), clears the handle, clears the running flag,
and publishes the reason — exactly one publish per run. -/
def stderrTask (lines : List String) (st : ASState) (w : World) :
    ASState × World :=
  let w' :=
    match st.server_child with
    | some pid => killW w pid
    | none => w
  ({ st with
      server_child := none
      running := false
      stopPub := st.stopPub ++ [classifyStderr lines] }, w')

/-- `AudioShareServerThread::stop` (`audioshare.rs:425-438`): under both
locks, kills the child when a handle is present (failure logged only), then
unconditionally clears the handle and the running flag; publishes nothing. -/
def stopAS (st : ASState) (w : World) : ASState × World :=
  let w' :=
    match st.server_child with
    | some pid => killW w pid
    | none => w
  ({ st with server_child := none, running := false }, w')

/-- `AudioShareServerThread::reset` (`audioshare.rs:440-459`): like `stop`,
but additionally publishes `Resetting` on the stop-reason channel. -/
def resetAS (st : ASState) (w : World) : ASState × World :=
  let w' :=
    match st.server_child with
    | some pid => killW w pid
    | none => w
  ({ st with
      server_child := none
      running := false
      stopPub := st.stopPub ++ [.Resetting] }, w')

/-- `AudioShareServerThread::is_running` (`audioshare.rs:461-464`). -/
def isRunningAS (st : ASState) : Bool := st.running

/-- State of `FirewallTestThread` (`audioshare.rs:157-161`): the stored
listener slot (never actually filled by the source — the store at
`audioshare.rs:211` is commented out), the running flag, and the values
published on the broadcast result channel. -/
structure FWState where
  server_child : Option Unit
  running : Bool
  resultPub : List Bool
deriving Repr, DecidableEq

/-- Synchronous part of `FirewallTestThread::start` (`audioshare.rs:177-199`):
the listener slot is checked, then (defensively, a second time) the slot and
the running flag; if either check fires the call returns with no effect;
otherwise the running flag is set true and the background task is spawned. -/
def fwStart (st : FWState) : FWState :=
  if st.server_child.isSome then st
  else if st.server_child.isSome || st.running then st
  else { st with running := true }

/-- One iteration's observations in the probe's wait loop
(`audioshare.rs:214-220`): whether `start.elapsed() < timeout` held, the value
of the running flag read under its lock, and whether `listener.accept()`
returned a connection. -/
structure Step where
  timeLeft : Bool
  running : Bool
  accept : Bool
deriving Repr, DecidableEq

/-- The probe's wait loop (`audioshare.rs:213-220`): iterates while time
remains and the running flag holds; an accepted connection sets success and
exits. The result is the loop's `success` local. -/
def loopSuccess : List Step → Bool
  | [] => false
  | s :: rest =>
    if s.timeLeft && s.running then
      if s.accept then true else loopSuccess rest
    else false

/-- The probe's background task (`audioshare.rs:201-237`): on bind failure
publishes `false` immediately (the loop is never entered); on bind success
runs the wait loop, then publishes the success boolean only if the running
flag (`finalRunning`, read at `audioshare.rs:223`) is still true — otherwise
nothing is published. `none` means no publish. -/
def probeTask (bindOk : Bool) (steps : List Step) (finalRunning : Bool) :
    Option Bool :=
  if bindOk then
    if finalRunning then some (loopSuccess steps) else none
  else some false

/-- Effect of one probe task run on the `FirewallTestThread` state: appends
the published result, if any. The task body never writes the running flag or
the listener slot. -/
def fwTaskRun (st : FWState) (bindOk : Bool) (steps : List Step)
    (finalRunning : Bool) : FWState :=
  { st with resultPub := st.resultPub ++ (probeTask bindOk steps finalRunning).toList }

/-- `FirewallTestThread::stop` (`audioshare.rs:240-252`): sets the running
flag false, then empties the listener slot. -/
def fwStop (st : FWState) : FWState :=
  { st with running := false, server_child := none }

/-- `FirewallTestThread::is_running` (`audioshare.rs:254-256`). -/
def fwIsRunning (st : FWState) : Bool := st.running

/-- The controller state the mutual-exclusion claim is about
(`application.rs`): the UI-side `is_server_active` cell, and the `running`
flags of the two worker components as observed through `is_running()`. -/
structure AppModel where
  serverActive : Bool
  serverRunning : Bool
  probeRunning : Bool
deriving Repr, DecidableEq

/-- Outcome of one `on_test_firewall` call. -/
inductive FirewallAction
  | rejectedServerRunning
  | stoppedProbe
  | startedProbe
deriving Repr, DecidableEq

/-- `AudiosharegtkApplication::on_test_firewall` (`application.rs:363-427`):
if the server thread reports running, show a "Server is Running" error
notification and return (no state change); else if the probe reports running,
stop it; else start it. -/
def on_test_firewall (a : AppModel) : AppModel × FirewallAction :=
  if a.serverRunning then (a, .rejectedServerRunning)
  else if a.probeRunning then ({ a with probeRunning := false }, .stoppedProbe)
  else ({ a with probeRunning := true }, .startedProbe)

/-- `AudiosharegtkApplication::action_toggle_server`
(`application.rs:695-837`): if `is_server_active`, deactivate and stop the
server thread; otherwise, when a valid port is resolved (`portOk` abstracts
the entry-text/placeholder validation), activate and start the server thread.
No branch consults the probe's running flag. -/
def action_toggle_server (a : AppModel) (portOk : Bool) : AppModel :=
  if a.serverActive then
    { a with serverActive := false, serverRunning := false }
  else if portOk then
    { a with serverActive := true, serverRunning := true }
  else a

/-- When no line of the stream matches a fault marker, the stderr scan
classifies the run as `ExitedSuccessfully`. -/
theorem classifyStderr_of_no_fault (lines : List String)
    (h : lines.find? isFaultLine = none) :
    classifyStderr lines = .ExitedSuccessfully := by
  induction lines with
  | nil => rfl
  | cons l ls ih =>
    simp only [List.find?] at h
    cases hf : isFaultLine l with
    | true => rw [hf] at h; exact absurd h (by simp)
    | false =>
      rw [hf] at h
      have hb : strContains l bindMarker = false := by
        cases hb : strContains l bindMarker
        · rfl
        · exact absurd hf (by simp [isFaultLine, hb])
      have ha : strContains l argMarker = false := by
        cases ha : strContains l argMarker
        · rfl
        · exact absurd hf (by simp [isFaultLine, ha])
      simpa [classifyStderr, hb, ha] using ih h

/-- When the first fault-matching line contains the bind marker, the stderr
scan classifies the run as `InvalidBinding`. -/
theorem classifyStderr_of_bind (lines : List String) (l : String)
    (h : lines.find? isFaultLine = some l)
    (hb : strContains l bindMarker = true) :
    classifyStderr lines = .InvalidBinding := by
  induction lines with
  | nil => exact absurd h (by simp)
  | cons l' ls ih =>
    simp only [List.find?] at h
    cases hf : isFaultLine l' with
    | true =>
      rw [hf] at h
      have hl : l' = l := by simpa using h
      subst hl
      simp [classifyStderr, hb]
    | false =>
      rw [hf] at h
      have hb' : strContains l' bindMarker = false := by
        cases hx : strContains l' bindMarker
        · rfl
        · exact absurd hf (by simp [isFaultLine, hx])
      have ha' : strContains l' argMarker = false := by
        cases hx : strContains l' argMarker
        · rfl
        · exact absurd hf (by simp [isFaultLine, hx])
      simpa [classifyStderr, hb', ha'] using ih h

/-- When the first fault-matching line does not contain the bind marker (so it
matched via the invalid-argument marker), the stderr scan classifies the run
as `InvalidArgument`. -/
theorem classifyStderr_of_arg (lines : List String) (l : String)
    (h : lines.find? isFaultLine = some l)
    (hb : strContains l bindMarker = false) :
    classifyStderr lines = .InvalidArgument := by
  induction lines with
  | nil => exact absurd h (by simp)
  | cons l' ls ih =>
    simp only [List.find?] at h
    cases hf : isFaultLine l' with
    | true =>
      rw [hf] at h
      have hl : l' = l := by simpa using h
      subst hl
      have ha : strContains l' argMarker = true := by
        cases hx : strContains l' argMarker
        · exact absurd hf (by simp [isFaultLine, hb, hx])
        · rfl
      simp [classifyStderr, hb, ha]
    | false =>
      rw [hf] at h
      have hb' : strContains l' bindMarker = false := by
        cases hx : strContains l' bindMarker
        · rfl
        · exact absurd hf (by simp [isFaultLine, hx])
      have ha' : strContains l' argMarker = false := by
        cases hx : strContains l' argMarker
        · rfl
        · exact absurd hf (by simp [isFaultLine, hx])
      simpa [classifyStderr, hb', ha'] using ih h

/-- Claim C1: for every supervised run, the stderr task publishes exactly one
terminal `ProcessStopReason` on the stop-reason channel — `InvalidBinding`
when the first fault-matching stderr line contains the bind-failure marker,
`InvalidArgument` when it contains only the invalid-argument marker (the scan
stops at the first match either way), and `ExitedSuccessfully` when
end-of-stream is reached with no fault match — and the task kills the stored
child, clears the handle and clears the running flag. -/
theorem stderr_task_single_terminal_publish (lines : List String)
    (st : ASState) (w : World) :
    ((stderrTask lines st w).1.stopPub = st.stopPub ++ [classifyStderr lines]) ∧
    ((stderrTask lines st w).1.server_child = none) ∧
    ((stderrTask lines st w).1.running = false) ∧
    (∀ pid, st.server_child = some pid → (stderrTask lines st w).2 = killW w pid) ∧
    (st.server_child = none → (stderrTask lines st w).2 = w) ∧
    (lines.find? isFaultLine = none →
      classifyStderr lines = .ExitedSuccessfully) ∧
    (∀ l, lines.find? isFaultLine = some l → strContains l bindMarker = true →
      classifyStderr lines = .InvalidBinding) ∧
    (∀ l, lines.find? isFaultLine = some l → strContains l bindMarker = false →
      classifyStderr lines = .InvalidArgument) := by
  refine ⟨rfl, rfl, rfl, ?_, ?_, ?_, ?_, ?_⟩
  · intro pid h
    simp [stderrTask, h]
  · intro h
    simp [stderrTask, h]
  · exact classifyStderr_of_no_fault lines
  · exact fun l => classifyStderr_of_bind lines l
  · exact fun l => classifyStderr_of_arg lines l

/-- Instantiation of `stderr_task_single_terminal_publish` on a concrete
bind-failure stream and a concrete stored child. -/
theorem stderr_task_single_terminal_publish_witness :
    classifyStderr ["[error] bind: Cannot assign requested address"] =
      ProcessStopReason.InvalidBinding ∧
    (stderrTask ["[error] bind: Cannot assign requested address"]
        ⟨some 5, true, [], []⟩ ⟨6, [5]⟩).2 = killW ⟨6, [5]⟩ 5 := by
  have h := stderr_task_single_terminal_publish
    ["[error] bind: Cannot assign requested address"] ⟨some 5, true, [], []⟩ ⟨6, [5]⟩
  exact ⟨h.2.2.2.2.2.2.1 "[error] bind: Cannot assign requested address"
      (by decide) (by decide),
    h.2.2.2.1 5 rfl⟩

/-- Claim C2 counterexample: the stdout task's end-of-stream handling is
listed among the operations that update handle and running flag together, yet
on a state holding a live handle it clears only the running flag, leaving the
handle stored — the handle-present ⇔ running-true invariant is broken right
after it runs (and this is not a start-up-failure transient). -/
theorem stdout_task_breaks_handle_link :
    handleRunningInv ⟨some 0, true, [], []⟩ ∧
    (stdoutTask [] ⟨some 0, true, [], []⟩).server_child = some 0 ∧
    (stdoutTask [] ⟨some 0, true, [], []⟩).running = false ∧
    ¬ handleRunningInv (stdoutTask [] ⟨some 0, true, [], []⟩) := by
  refine ⟨rfl, rfl, rfl, ?_⟩
  intro h
  simp [handleRunningInv, stdoutTask] at h

/-- Claim C2 amended: `start`, `stop`, `reset` and the stderr task's
termination handling update the stored handle and the running flag together,
preserving handle-present ⇔ running-true; the stdout task's end-of-stream
handling, by contrast, clears only the running flag and leaves the stored
handle unchanged, so the linkage can be transiently false between the stdout
task's flag clear and the stderr task's cleanup. -/
theorem handle_running_updated_together (so : Bool) (lines : List String)
    (st : ASState) (w : World) :
    (handleRunningInv st → handleRunningInv (startAS so st w).1) ∧
    handleRunningInv (stopAS st w).1 ∧
    handleRunningInv (resetAS st w).1 ∧
    handleRunningInv (stderrTask lines st w).1 ∧
    (stdoutTask lines st).server_child = st.server_child ∧
    (stdoutTask lines st).running = false := by
  refine ⟨?_, ?_, ?_, ?_, rfl, rfl⟩
  · intro h
    cases hr : st.running with
    | true => simpa [startAS, hr] using h
    | false =>
      cases hc : st.server_child.isSome with
      | true => simp [handleRunningInv, hr] at h; simp [h] at hc
      | false =>
        cases so with
        | true => simp [startAS, hr, hc, handleRunningInv, spawnW]
        | false => simp [startAS, hr, hc, handleRunningInv]
  · simp [handleRunningInv, stopAS]
  · simp [handleRunningInv, resetAS]
  · simp [handleRunningInv, stderrTask]

/-- Instantiation of `handle_running_updated_together` on a concrete idle
state, discharging the invariant hypothesis of the `start` conjunct. -/
theorem handle_running_updated_together_witness :
    handleRunningInv (startAS true ⟨none, false, [], []⟩ ⟨0, []⟩).1 :=
  (handle_running_updated_together true [] ⟨none, false, [], []⟩ ⟨0, []⟩).1
    (by simp [handleRunningInv])

/-- Claim C3 counterexample: on an accept line whose trailing token holds more
than one colon, the code emits the part before the FIRST colon, not the part
before the last colon that the claim states — here the token `[::1]:4000`
yields address `[`, while the prefix before its last colon is `[::1]`. -/
theorem accept_addr_is_first_colon_split :
    classifyStdoutLine "[info] accept [::1]:4000" = [("[", true)] ∧
    lastToken "[info] accept [::1]:4000" = some "[::1]:4000" ∧
    specLastColonAddr "[::1]:4000" = some "[::1]" ∧
    ("[" : String) ≠ "[::1]" := by
  refine ⟨by decide, by decide, by decide, by decide⟩

/-- Claim C3 amended: for every stdout line containing the accept marker whose
trailing whitespace-delimited token contains a colon, the classifier emits a
single event whose address is the token's part before its FIRST colon, with
connected = true; close-marker lines are handled identically with
connected = false; lines with neither marker, with no trailing token, or with
no colon in the trailing token produce no event. -/
theorem stdout_classifier_first_colon :
    (∀ line tok ip rest, strContains line acceptMarker = true →
      strContains line closeMarker = false → lastToken line = some tok →
      splitOnceColon tok = some (ip, rest) →
      classifyStdoutLine line = [(ip, true)]) ∧
    (∀ line tok ip rest, strContains line closeMarker = true →
      strContains line acceptMarker = false → lastToken line = some tok →
      splitOnceColon tok = some (ip, rest) →
      classifyStdoutLine line = [(ip, false)]) ∧
    (∀ line, strContains line acceptMarker = false →
      strContains line closeMarker = false → classifyStdoutLine line = []) ∧
    (∀ line tok, lastToken line = some tok → splitOnceColon tok = none →
      classifyStdoutLine line = []) ∧
    (∀ line, lastToken line = none → classifyStdoutLine line = []) := by
  refine ⟨?_, ?_, ?_, ?_, ?_⟩
  · intro line tok ip rest h1 h2 h3 h4
    simp [classifyStdoutLine, h1, h2, h3, h4]
  · intro line tok ip rest h1 h2 h3 h4
    simp [classifyStdoutLine, h1, h2, h3, h4]
  · intro line h1 h2
    simp [classifyStdoutLine, h1, h2]
  · intro line tok h1 h2
    simp [classifyStdoutLine, h1, h2]
  · intro line h1
    simp [classifyStdoutLine, h1]

/-- Instantiation of `stdout_classifier_first_colon` on a concrete accept line
with trailing token `10.0.0.5:4000`. -/
theorem stdout_classifier_first_colon_witness :
    classifyStdoutLine "[info] accept from 10.0.0.5:4000" = [("10.0.0.5", true)] :=
  stdout_classifier_first_colon.1 "[info] accept from 10.0.0.5:4000"
    "10.0.0.5:4000" "10.0.0.5" "4000" (by decide) (by decide) (by decide)
    (by decide)

/-- Claim C4: a `start` call while the running flag is true or a handle is
stored is a silent no-op (state, world and both channels unchanged, nothing
spawned); in particular the second of two consecutive successful starts from
an idle state changes nothing, leaving exactly one live subprocess. -/
theorem start_noop_when_already_running :
    (∀ so st w, st.running = true ∨ st.server_child.isSome = true →
      startAS so st w = (st, w)) ∧
    startAS true (startAS true ⟨none, false, [], []⟩ ⟨0, []⟩).1
        (startAS true ⟨none, false, [], []⟩ ⟨0, []⟩).2 =
      startAS true ⟨none, false, [], []⟩ ⟨0, []⟩ ∧
    (startAS true ⟨none, false, [], []⟩ ⟨0, []⟩).2.alive = [0] := by
  refine ⟨?_, by decide, by decide⟩
  intro so st w h
  rcases h with h | h
  · simp [startAS, h]
  · cases hr : st.running with
    | true => simp [startAS, hr]
    | false => simp [startAS, hr, h]

/-- Instantiation of `start_noop_when_already_running` on a concrete running
state. -/
theorem start_noop_when_already_running_witness :
    startAS true ⟨some 3, true, [], []⟩ ⟨4, [3]⟩ =
      (⟨some 3, true, [], []⟩, ⟨4, [3]⟩) :=
  start_noop_when_already_running.1 true ⟨some 3, true, [], []⟩ ⟨4, [3]⟩
    (Or.inl rfl)

/-- Claim C5: `stop` kills the child only when a handle is present (a kill
failure stays local — nothing reaches any channel), unconditionally clears
the handle and the running flag, and publishes nothing on either channel;
`stop` with no active run changes nothing and leaves `is_running` false. -/
theorem stop_kills_clears_publishes_nothing (st : ASState) (w : World) :
    (stopAS st w).1.server_child = none ∧
    (stopAS st w).1.running = false ∧
    (stopAS st w).1.stopPub = st.stopPub ∧
    (stopAS st w).1.devicePub = st.devicePub ∧
    (∀ pid, st.server_child = some pid → (stopAS st w).2 = killW w pid) ∧
    (st.server_child = none → (stopAS st w).2 = w) ∧
    (st.server_child = none → st.running = false → stopAS st w = (st, w)) ∧
    isRunningAS (stopAS st w).1 = false := by
  refine ⟨rfl, rfl, rfl, rfl, ?_, ?_, ?_, rfl⟩
  · intro pid h
    simp [stopAS, h]
  · intro h
    simp [stopAS, h]
  · intro h1 h2
    cases st
    simp_all [stopAS]

/-- Instantiation of `stop_kills_clears_publishes_nothing` on a concrete idle
state: `stop` with no run active is a no-op. -/
theorem stop_kills_clears_publishes_nothing_witness :
    stopAS ⟨none, false, [], []⟩ ⟨7, [1, 2]⟩ =
      (⟨none, false, [], []⟩, ⟨7, [1, 2]⟩) :=
  (stop_kills_clears_publishes_nothing ⟨none, false, [], []⟩
    ⟨7, [1, 2]⟩).2.2.2.2.2.2.1 rfl rfl

/-- In a run that is never cancelled (every read of the running flag during
the wait loop returns true), the loop succeeds exactly when some poll within
the time window observes an accepted connection. -/
theorem loopSuccess_eq_window (steps : List Step)
    (h : ∀ s ∈ steps, s.running = true) :
    loopSuccess steps =
      (steps.takeWhile (fun s => s.timeLeft)).any (fun s => s.accept) := by
  induction steps with
  | nil => rfl
  | cons s rest ih =>
    have hs : s.running = true := h s (List.mem_cons_self s rest)
    have ih' := ih fun x hx => h x (List.mem_cons_of_mem s hx)
    cases ht : s.timeLeft with
    | true =>
      cases ha : s.accept with
      | true => simp [loopSuccess, List.takeWhile, hs, ht, ha]
      | false => simp [loopSuccess, List.takeWhile, hs, ht, ha, ih']
    | false => simp [loopSuccess, List.takeWhile, hs, ht]

/-- Claim C6: for every probe run that is not cancelled, the published boolean
is true exactly when a connection is accepted within the wait window, false
when the time ceiling elapses with no accepted connection, and false
immediately on bind failure — where the wait loop is never consulted (the
bind-failure result is the same for every schedule). -/
theorem probe_result_correct (steps : List Step) (fr : Bool)
    (hnc : ∀ s ∈ steps, s.running = true) :
    probeTask false steps fr = some false ∧
    probeTask true steps true =
      some ((steps.takeWhile (fun s => s.timeLeft)).any (fun s => s.accept)) := by
  refine ⟨rfl, ?_⟩
  simp [probeTask, loopSuccess_eq_window steps hnc]

/-- Instantiation of `probe_result_correct` on concrete schedules: an accept
within the window publishes true; an elapsed ceiling with no accept publishes
false; a bind failure publishes false. -/
theorem probe_result_correct_witness :
    probeTask true [⟨true, true, true⟩] true = some true ∧
    probeTask true [⟨true, true, false⟩, ⟨false, true, false⟩] true =
      some false ∧
    probeTask false [] true = some false := by
  refine ⟨?_, ?_, ?_⟩
  · have h := (probe_result_correct [⟨true, true, true⟩] true (by decide)).2
    simpa using h
  · have h := (probe_result_correct [⟨true, true, false⟩, ⟨false, true, false⟩]
      true (by decide)).2
    simpa using h
  · exact (probe_result_correct [] true (by decide)).1

/-- Claim C7: for a probe run whose bind succeeded, if the running flag is
observed false at the post-loop check (stop was called mid-wait), nothing at
all is published on the result channel for that run, whatever the schedule
was. -/
theorem probe_cancelled_publishes_nothing (st : FWState) (steps : List Step) :
    probeTask true steps false = none ∧
    fwTaskRun st true steps false = st := by
  refine ⟨rfl, ?_⟩
  simp [fwTaskRun, probeTask]

/-- Claim C8 counterexample: starting from the all-idle controller state,
`on_test_firewall` starts the probe, and a following `action_toggle_server`
(with a valid port) starts the server without consulting the probe's running
flag — reaching, in two steps, a state where both the server run and the
probe run are active, with no rejection surfaced. -/
theorem server_start_ignores_probe :
    on_test_firewall ⟨false, false, false⟩ =
      (⟨false, false, true⟩, .startedProbe) ∧
    action_toggle_server ⟨false, false, true⟩ true = ⟨true, true, true⟩ ∧
    (action_toggle_server ⟨false, false, true⟩ true).serverRunning = true ∧
    (action_toggle_server ⟨false, false, true⟩ true).probeRunning = true := by
  refine ⟨by decide, by decide, by decide, by decide⟩

/-- Claim C8 amended: the controller prevents starting the firewall probe
while the server is running, surfacing a rejection notification and changing
no state; in the other direction, the server-start path never consults the
probe's running flag, so starting the server while the probe is running is
permitted and both runs can be active at once. -/
theorem probe_rejected_while_server_running (a : AppModel) (portOk : Bool) :
    (a.serverRunning = true →
      on_test_firewall a = (a, .rejectedServerRunning)) ∧
    (a.serverActive = false → portOk = true →
      (action_toggle_server a portOk).serverRunning = true ∧
      (action_toggle_server a portOk).probeRunning = a.probeRunning) := by
  refine ⟨?_, ?_⟩
  · intro h
    simp [on_test_firewall, h]
  · intro h1 h2
    simp [action_toggle_server, h1, h2]

/-- Instantiation of `probe_rejected_while_server_running` on a concrete
state with the server running. -/
theorem probe_rejected_while_server_running_witness :
    on_test_firewall ⟨true, true, false⟩ =
      (⟨true, true, false⟩, .rejectedServerRunning) :=
  (probe_rejected_while_server_running ⟨true, true, false⟩ true).1 rfl

/-- Claim C9: when spawning the worker fails in `start` (preconditions having
passed: no running flag, no stored handle), the running flag remains false,
no handle is stored, nothing is published on either channel, and the live
process pool is untouched — the failure stays local to the caller. -/
theorem spawn_failure_stays_local (st : ASState) (w : World)
    (h1 : st.running = false) (h2 : st.server_child = none) :
    startAS false st w = (st, w) ∧
    (startAS false st w).1.running = false ∧
    (startAS false st w).1.server_child = none ∧
    (startAS false st w).1.stopPub = st.stopPub ∧
    (startAS false st w).1.devicePub = st.devicePub ∧
    (startAS false st w).2.alive = w.alive := by
  cases st
  simp_all [startAS]

/-- Instantiation of `spawn_failure_stays_local` on a concrete idle state. -/
theorem spawn_failure_stays_local_witness :
    startAS false ⟨none, false, [], []⟩ ⟨0, []⟩ =
      (⟨none, false, [], []⟩, ⟨0, []⟩) :=
  (spawn_failure_stays_local ⟨none, false, [], []⟩ ⟨0, []⟩ rfl rfl).1

/-- Claim C10: for `FirewallTestThread`, the background task never writes the
running flag or the listener slot (no completion path clears them); `stop` is
what sets the flag false; `start` sets it true from an idle state and is
rejected (a no-op) whenever the flag is already true — in particular, after a
run's result has been published the flag still reads true and a further
`start` before `stop` changes nothing. -/
theorem fw_running_set_only_by_start_stop (st : FWState) (b : Bool)
    (steps : List Step) (fr : Bool) :
    (fwTaskRun st b steps fr).running = st.running ∧
    (fwTaskRun st b steps fr).server_child = st.server_child ∧
    (fwStop st).running = false ∧
    (st.running = true → fwStart st = st) ∧
    (st.running = false → st.server_child = none →
      fwStart st = { st with running := true }) ∧
    (st.running = true → fwIsRunning (fwTaskRun st b steps fr) = true ∧
      fwStart (fwTaskRun st b steps fr) = fwTaskRun st b steps fr) := by
  refine ⟨rfl, rfl, rfl, ?_, ?_, ?_⟩
  · intro h
    cases hc : st.server_child.isSome with
    | true => simp [fwStart, hc]
    | false => simp [fwStart, hc, h]
  · intro h1 h2
    simp [fwStart, h2, h1]
  · intro h
    refine ⟨h, ?_⟩
    cases hc : st.server_child.isSome with
    | true => simp [fwStart, fwTaskRun, hc]
    | false => simp [fwStart, fwTaskRun, hc, h]

/-- Instantiation of `fw_running_set_only_by_start_stop`: after a started
probe's task publishes its result, `is_running` still reads true and a second
`start` is a no-op. -/
theorem fw_running_set_only_by_start_stop_witness :
    fwIsRunning (fwTaskRun ⟨none, true, []⟩ true [] true) = true ∧
    fwStart (fwTaskRun ⟨none, true, []⟩ true [] true) =
      fwTaskRun ⟨none, true, []⟩ true [] true :=
  (fw_running_set_only_by_start_stop ⟨none, true, []⟩ true [] true).2.2.2.2.2
    rfl

end AudioShareGtk
